import Mathlib

/-!
Verification model of the transactional checkout / balance-ledger engine of
`simple-ecommerce-api`.

The embedding follows the final (most complete) revision of the source:
`cmd/api/storage.go` (lines 475-1473: `CheckoutCart`, `DeliverOrder`,
`CancelOrder`, `GetTransationWithSignature`, `TransferToUser`, `GetUserById`),
`cmd/api/data.go` (entity structs), `cmd/api/handlers.go` (webhook path) and
the SQL migrations (table defaults and the UNIQUE constraint on
`transations.signature`).

Modelling conventions:
* All monetary amounts are `decimal(10, 2)` fixed-point values in the source
  (shopspring/decimal); they are modelled as `Int` numbers of cents, on which
  the decimal operations used by the source (`Add`, `Mul` by an integer,
  `Neg`, `GreaterThan`, `LessThanOrEqual`) are exact.
* `int64`/`int32` ids, quantities and version counters are modelled as `Int`;
  machine overflow is out of range for the `decimal(10,2)`-bounded values and
  `bigserial`/`integer` counters the code manipulates.
* The database is a record of entity lists.  A SQL `UPDATE ... WHERE id = ?
  AND version = ?` is a conditional map over the list; `ExecContext` discards
  the rows-affected count (a zero-row match is silent), while `QueryRowContext
  ... RETURNING version` followed by `Scan` fails with `sql.ErrNoRows` on a
  zero-row match.  The embedding reproduces this difference exactly: it is
  load-bearing for several claims.
* `tx.Rollback()` on an error path is modelled by returning the pre-state
  unchanged next to the error.
* Fields the engine never reads (names, emails, timestamps, password hashes,
  `completed_at`) are omitted from the entity records.
-/

namespace Ecommerce

/-- Mirrors `User` of `cmd/api/data.go` (id, balance, version; the fields the
engine reads).  `balance` is in cents. -/
structure User where
  id : Int
  balance : Int
  version : Int
deriving Repr, DecidableEq

/-- Mirrors `Product` of `cmd/api/data.go` (id, price, quantity, version).
`price` is in cents. -/
structure Product where
  id : Int
  price : Int
  quantity : Int
  version : Int
deriving Repr, DecidableEq

/-- Mirrors `CartItem` of `cmd/api/data.go`. -/
structure CartItem where
  id : Int
  productID : Int
  userID : Int
  quantity : Int
  version : Int
deriving Repr, DecidableEq

/-- Mirrors `Order` of `cmd/api/data.go`.  `statusID`: 1 = in_progress,
2 = delivered, 3 = cancelled (`order_status` seed rows of the migration). -/
structure Order where
  id : Int
  userID : Int
  statusID : Int
  version : Int
deriving Repr, DecidableEq

/-- Mirrors `OrderItem` of `cmd/api/data.go` (point-in-time price snapshot). -/
structure OrderItem where
  id : Int
  orderID : Int
  productID : Int
  quantity : Int
  price : Int
deriving Repr, DecidableEq

/-- Mirrors `Transation` of `cmd/api/data.go` (the ledger-entry row; the
source spells it without the `c`). -/
structure Transation where
  id : Int
  userID : Int
  signature : String
  amount : Int
deriving Repr, DecidableEq

/-- The persistent state behind `Storage`: one list per table of the
migrations, plus the `bigserial` counters that `RETURNING id` draws from. -/
structure DB where
  users : List User
  products : List Product
  cartItems : List CartItem
  orders : List Order
  orderItems : List OrderItem
  transations : List Transation
  nextOrderID : Int
  nextOrderItemID : Int
  nextTransationID : Int
deriving Repr, DecidableEq

/-- `GetUserById` of `storage.go`: `SELECT ... FROM users WHERE id = $1`. -/
def GetUserById (db : DB) (id : Int) : Option User :=
  db.users.find? fun v => v.id == id

/-- `GetTransationWithSignature` of `storage.go`:
`SELECT ... FROM transations WHERE signature = $1`, `nil` on no rows. -/
def GetTransationWithSignature (db : DB) (signature : String) : Option Transation :=
  db.transations.find? fun t => t.signature == signature

/-- The join `query0` of `CheckoutCart`: cart rows of the user, inner-joined
with their product rows, in cart-item insertion order. -/
def cartJoin (db : DB) (userID : Int) : List (CartItem × Product) :=
  db.cartItems.filterMap fun c =>
    if c.userID = userID then
      (db.products.find? fun p => p.id == c.productID).map fun p => (c, p)
    else none

/-- The scan loop of `CheckoutCart`: walks the joined rows in order, aborts at
the first line whose desired quantity exceeds the product stock
(`item.Quantity > p.Quantity`), otherwise accumulates
`total = total.Add(price.Mul(quantity))`. -/
def scanItems (rows : List (CartItem × Product)) (total : Int) : Option Int :=
  match rows with
  | [] => some total
  | (c, p) :: rest =>
    if p.quantity < c.quantity then none
    else scanItems rest (total + p.price * c.quantity)

/-- `query1` of `CheckoutCart`: `UPDATE products SET quantity = quantity - $1,
version = version + 1 WHERE id = $2 AND version = $3`.  Executed with
`ExecContext`, so a zero-row match is not detected. -/
def guardedProductDecrement (ps : List Product) (pid pver q : Int) : List Product :=
  ps.map fun r =>
    if r.id = pid ∧ r.version = pver then
      { r with quantity := r.quantity - q, version := r.version + 1 }
    else r

/-- The per-line loop applying `query1` of `CheckoutCart` to every joined row. -/
def applyProductDecrements (ps : List Product) (rows : List (CartItem × Product)) : List Product :=
  rows.foldl (fun acc cp => guardedProductDecrement acc cp.2.id cp.2.version cp.1.quantity) ps

/-- `query2` of `CheckoutCart`: `UPDATE users SET balance = balance - $1,
version = version + 1 WHERE id = $2 AND version = $3`.  Executed with
`ExecContext`, so a zero-row match is not detected. -/
def guardedBalanceDebit (us : List User) (uid uver amount : Int) : List User :=
  us.map fun r =>
    if r.id = uid ∧ r.version = uver then
      { r with balance := r.balance - amount, version := r.version + 1 }
    else r

/-- `query2` of `CancelOrder` / `query1` of `TransferToUser`: `UPDATE users SET
balance = balance + $1, version = version + 1 WHERE id = $2 AND version = $3
RETURNING version`. -/
def guardedBalanceCredit (us : List User) (uid uver amount : Int) : List User :=
  us.map fun r =>
    if r.id = uid ∧ r.version = uver then
      { r with balance := r.balance + amount, version := r.version + 1 }
    else r

/-- The `query4` loop of `CheckoutCart`: one `order_items` row per joined cart
line, snapshotting product id, quantity and price; ids from the `bigserial`. -/
def buildOrderItems (rows : List (CartItem × Product)) (orderID startID : Int) : List OrderItem :=
  match rows with
  | [] => []
  | (c, p) :: rest =>
    { id := startID, orderID := orderID, productID := p.id,
      quantity := c.quantity, price := p.price } :: buildOrderItems rest orderID (startID + 1)

/-- Error outcomes of `CheckoutCart` (`storage.go` lines 972-1107).
`uniqueViolation` is the database error raised by the UNIQUE constraint on
`transations.signature` when `query6`'s insert collides. -/
inductive CheckoutErr where
  | outOfStock
  | emptyCart
  | insufficientFunds
  | uniqueViolation
deriving Repr, DecidableEq

/-- `CheckoutCart` of `storage.go` (lines 972-1107), one serializable
transaction: join cart and products (`query0`), per-line stock check and total
accumulation, empty-cart check, funds check (`total.GreaterThan(u.Balance)`),
version-guarded product decrements (`query1`, rows-affected ignored),
version-guarded balance debit (`query2`, rows-affected ignored), order insert
(`query3`, `status_id` defaults to 1), order-item inserts (`query4`), cart
delete (`query5`), ledger insert (`query6`, signature
`checkout-order_id=<id>`, amount `-total`).  Every error path rolls the
transaction back, returning the pre-state.  The UNIQUE check of `query6` is
evaluated before the writes here; as the transaction is all-or-nothing this
reordering is observationally equivalent. -/
def CheckoutCart (u : User) (db : DB) : Except CheckoutErr (Int × Int) × DB :=
  let rows := cartJoin db u.id
  match scanItems rows 0 with
  | none => (Except.error CheckoutErr.outOfStock, db)
  | some total =>
    if rows.isEmpty then (Except.error CheckoutErr.emptyCart, db)
    else if u.balance < total then (Except.error CheckoutErr.insufficientFunds, db)
    else
      let orderID := db.nextOrderID
      let sig := "checkout-order_id=" ++ toString orderID
      if db.transations.any fun t => t.signature == sig then
        (Except.error CheckoutErr.uniqueViolation, db)
      else
        (Except.ok (total, orderID),
         { users := guardedBalanceDebit db.users u.id u.version total
           products := applyProductDecrements db.products rows
           cartItems := db.cartItems.filter fun c => c.userID ≠ u.id
           orders := db.orders ++ [{ id := orderID, userID := u.id, statusID := 1, version := 1 }]
           orderItems := db.orderItems ++ buildOrderItems rows orderID db.nextOrderItemID
           transations := db.transations ++
             [{ id := db.nextTransationID, userID := u.id, signature := sig, amount := -total }]
           nextOrderID := orderID + 1
           nextOrderItemID := db.nextOrderItemID + rows.length
           nextTransationID := db.nextTransationID + 1 })

/-- The `WHERE status_id = 1 AND id = $1 AND version = $2` guard shared by
`DeliverOrder` and `CancelOrder`: does any row match? -/
def orderGuardMatches (os : List Order) (oid over : Int) : Bool :=
  os.any fun r => r.statusID == 1 && r.id == oid && r.version == over

/-- The guarded status update of `DeliverOrder` (`status_id = 2`) and
`CancelOrder` (`status_id = 3`): `UPDATE orders SET status_id = ?,
completed_at = NOW(), version = version + 1 WHERE status_id = 1 AND id = ?
AND version = ? RETURNING version`. -/
def guardedOrderStatusUpdate (os : List Order) (newStatus oid over : Int) : List Order :=
  os.map fun r =>
    if r.statusID = 1 ∧ r.id = oid ∧ r.version = over then
      { r with statusID := newStatus, version := r.version + 1 }
    else r

/-- `DeliverOrder` of `storage.go` (lines 1270-1285): one guarded update with
`RETURNING version`; `Scan` fails (`sql.ErrNoRows`) when no row matches, in
which case nothing changes.  On success the bumped version is written back
into the caller's order value. -/
def DeliverOrder (o : Order) (db : DB) : Option Order × DB :=
  if orderGuardMatches db.orders o.id o.version then
    (some { o with version := o.version + 1 },
     { db with orders := guardedOrderStatusUpdate db.orders 2 o.id o.version })
  else (none, db)

/-- The refund recomputation `query0` of `CancelOrder`:
`SELECT SUM(price * quantity) FROM order_items WHERE order_id = $1`.
(Over zero rows SQL `SUM` is NULL and the `Scan` errors; the model returns 0,
which the caller's `total <= 0` check turns into the same observable outcome:
an error with the state unchanged.) -/
def sumOrderItems (items : List OrderItem) (orderID : Int) : Int :=
  ((items.filter fun i => i.orderID == orderID).map fun i => i.price * i.quantity).sum

/-- Error outcomes of `CancelOrder` (`storage.go` lines 1287-1360). -/
inductive CancelErr where
  | invalidRefund
  | conflict
  | noUser
  | uniqueViolation
deriving Repr, DecidableEq

/-- `CancelOrder` of `storage.go` (lines 1287-1360): recompute the refund from
the order items, reject a non-positive refund, then in one serializable
transaction: guarded order transition to status 3 (`RETURNING version`, no
match is an error), fresh `GetUserById` read, guarded balance credit
(`RETURNING version`), ledger insert with signature `cancel-order-id=<id>` and
amount `+refund`.  Every error path rolls back.  The UNIQUE check of the
insert is evaluated before the writes; all-or-nothing, so equivalent. -/
def CancelOrder (o : Order) (db : DB) : Except CancelErr Int × DB :=
  let total := sumOrderItems db.orderItems o.id
  if total ≤ 0 then (Except.error CancelErr.invalidRefund, db)
  else if !orderGuardMatches db.orders o.id o.version then (Except.error CancelErr.conflict, db)
  else
    match GetUserById db o.userID with
    | none => (Except.error CancelErr.noUser, db)
    | some u =>
      let sig := "cancel-order-id=" ++ toString o.id
      if db.transations.any fun t => t.signature == sig then
        (Except.error CancelErr.uniqueViolation, db)
      else
        (Except.ok total,
         { db with
           orders := guardedOrderStatusUpdate db.orders 3 o.id o.version
           users := guardedBalanceCredit db.users u.id u.version total
           transations := db.transations ++
             [{ id := db.nextTransationID, userID := u.id, signature := sig, amount := total }]
           nextTransationID := db.nextTransationID + 1 })

/-- Error outcomes of `TransferToUser` (`storage.go` lines 1384-1422). -/
inductive TransferErr where
  | uniqueViolation
  | conflict
deriving Repr, DecidableEq

/-- `TransferToUser` of `storage.go` (lines 1384-1422), one serializable
transaction: insert a `transations` row (the UNIQUE constraint on `signature`
rejects a duplicate), then guarded balance credit with `RETURNING version`
(no matching row is an error).  Any error rolls the whole transaction back. -/
def TransferToUser (u : User) (signature : String) (amount : Int) (db : DB) :
    Except TransferErr Unit × DB :=
  if db.transations.any fun t => t.signature == signature then
    (Except.error TransferErr.uniqueViolation, db)
  else if !db.users.any (fun v => v.id == u.id && v.version == u.version) then
    (Except.error TransferErr.conflict, db)
  else
    (Except.ok (),
     { db with
       users := guardedBalanceCredit db.users u.id u.version amount
       transations := db.transations ++
         [{ id := db.nextTransationID, userID := u.id, signature := signature, amount := amount }]
       nextTransationID := db.nextTransationID + 1 })

/-- `BalanceTransfer` of `cmd/api/handlers.go` line 641: the purpose tag the
top-up session carries in its metadata. -/
def BalanceTransfer : String := "BalanceTransfer"

/-- A verified-or-not payment notification as the webhook path sees it:
outcome of the Stripe signature check, whether the event is a completed and
paid checkout session, the `balance_transfer` metadata tag, the session id,
the embedded user reference, and the paid amount in cents. -/
structure WebhookEvent where
  verified : Bool
  completed : Bool
  balanceTransferTag : String
  sessionID : String
  userID : Int
  amount : Int
deriving Repr, DecidableEq

/-- Modelled from the spec: the webhook handler wired to the final routes
(`balancesWebhookHandler`, `routes.go`: `POST /v1/balances-webhook`) is not
among the provided source files; only its storage-layer callees
(`GetTransationWithSignature`, `TransferToUser`, `GetUserById`) and its route
registration are.  Per spec section 4.4 the handler: discards an unverified
notification; rejects a wrong purpose tag; derives the idempotency signature
`payment-session-id=<id>`; if a ledger entry with that signature exists it is
a no-op returning success; otherwise it credits the user and inserts the entry
in one transaction (here through the source's `TransferToUser`).  `true` means
the notifier sees success. -/
def applyPaymentWebhook (ev : WebhookEvent) (db : DB) : Bool × DB :=
  if !ev.verified then (false, db)
  else if !ev.completed then (false, db)
  else if ev.balanceTransferTag ≠ BalanceTransfer then (false, db)
  else
    let sig := "payment-session-id=" ++ ev.sessionID
    match GetTransationWithSignature db sig with
    | some _ => (true, db)
    | none =>
      match GetUserById db ev.userID with
      | none => (false, db)
      | some u =>
        match TransferToUser u sig ev.amount db with
        | (Except.ok _, db1) => (true, db1)
        | (Except.error _, db1) => (false, db1)

/-- Balance of the user row with the given id, as `GetUserById` reads it. -/
def userBalance (db : DB) (id : Int) : Option Int :=
  (GetUserById db id).map User.balance

/-- Stock of the product row with the given id, as `GetProductByID` reads it. -/
def productQuantity (db : DB) (id : Int) : Option Int :=
  (db.products.find? fun p => p.id == id).map Product.quantity

/-- Sum of `price * quantity` over a joined cart, the value the scan loop of
`CheckoutCart` accumulates. -/
def lineTotal (rows : List (CartItem × Product)) : Int :=
  (rows.map fun cp => cp.2.price * cp.1.quantity).sum

theorem scanItems_none_of_bad : ∀ (rows : List (CartItem × Product)) (acc : Int),
    (∃ cp ∈ rows, cp.2.quantity < cp.1.quantity) → scanItems rows acc = none
  | [], _, h => by simp at h
  | (c, p) :: tl, acc, h => by
    rcases h with ⟨cp, hmem, hlt⟩
    rcases List.mem_cons.mp hmem with rfl | hmem'
    · simp [scanItems, hlt]
    · unfold scanItems
      split
      · rfl
      · exact scanItems_none_of_bad tl _ ⟨cp, hmem', hlt⟩

theorem scanItems_some_total : ∀ (rows : List (CartItem × Product)) (acc t : Int),
    scanItems rows acc = some t → t = acc + lineTotal rows
  | [], acc, t, h => by
    simp [scanItems] at h
    simp [lineTotal, h]
  | (c, p) :: tl, acc, t, h => by
    unfold scanItems at h
    split at h
    · exact absurd h (by simp)
    · have ih := scanItems_some_total tl _ t h
      simp only [lineTotal, List.map_cons, List.sum_cons] at ih ⊢
      linarith

theorem sumOrderItems_append (l1 l2 : List OrderItem) (oid : Int) :
    sumOrderItems (l1 ++ l2) oid = sumOrderItems l1 oid + sumOrderItems l2 oid := by
  simp [sumOrderItems, List.filter_append]

theorem sumOrderItems_eq_zero (items : List OrderItem) (oid : Int)
    (h : ∀ i ∈ items, i.orderID ≠ oid) : sumOrderItems items oid = 0 := by
  have : items.filter (fun i => i.orderID == oid) = [] :=
    List.filter_eq_nil_iff.mpr (by intro i hi; simpa using h i hi)
  simp [sumOrderItems, this]

theorem sumOrderItems_build : ∀ (rows : List (CartItem × Product)) (oid s : Int),
    sumOrderItems (buildOrderItems rows oid s) oid = lineTotal rows
  | [], _, _ => by simp [buildOrderItems, sumOrderItems, lineTotal]
  | (c, p) :: tl, oid, s => by
    have ih := sumOrderItems_build tl oid (s + 1)
    simp only [buildOrderItems, lineTotal, List.map_cons, List.sum_cons] at ih ⊢
    simp only [sumOrderItems, List.filter_cons] at ih ⊢
    simp [ih]

theorem find?_map_of_id_preserving {α : Type} (l : List α) (f : α → α) (p : α → Bool)
    (hp : ∀ a, p (f a) = p a) : (l.map f).find? p = (l.find? p).map f := by
  rw [List.find?_map]
  have : p ∘ f = p := funext hp
  rw [this]

theorem find?_guardedBalanceDebit (us : List User) (uid uver amount id : Int) :
    (guardedBalanceDebit us uid uver amount).find? (fun v => v.id == id) =
      (us.find? fun v => v.id == id).map fun v =>
        if v.id = uid ∧ v.version = uver then
          { v with balance := v.balance - amount, version := v.version + 1 }
        else v := by
  apply find?_map_of_id_preserving
  intro a
  by_cases h : a.id = uid ∧ a.version = uver <;> simp [h]

theorem find?_guardedBalanceCredit (us : List User) (uid uver amount id : Int) :
    (guardedBalanceCredit us uid uver amount).find? (fun v => v.id == id) =
      (us.find? fun v => v.id == id).map fun v =>
        if v.id = uid ∧ v.version = uver then
          { v with balance := v.balance + amount, version := v.version + 1 }
        else v := by
  apply find?_map_of_id_preserving
  intro a
  by_cases h : a.id = uid ∧ a.version = uver <;> simp [h]

/-- C5: for a user with balance 100.00 (10000 cents) whose cart holds one line
of product A (id 1) with quantity 2 at price 30.00 (3000 cents) and stock 5,
checkout succeeds with total 60.00 and order id 1; afterwards the balance is
40.00, the product quantity dropped by 2 (to 3), the cart is empty, one order
in the initial in_progress state (status 1) with one snapshot item (quantity
2, price 30.00) exists, and exactly one ledger entry of amount -60.00 with
signature `checkout-order_id=1` exists. -/
theorem c5_checkout_concrete_example :
    (CheckoutCart ⟨1, 10000, 1⟩
        ⟨[⟨1, 10000, 1⟩], [⟨1, 3000, 5, 1⟩], [⟨1, 1, 1, 2, 1⟩], [], [], [], 1, 1, 1⟩).1 =
      Except.ok (6000, 1) ∧
    (CheckoutCart ⟨1, 10000, 1⟩
        ⟨[⟨1, 10000, 1⟩], [⟨1, 3000, 5, 1⟩], [⟨1, 1, 1, 2, 1⟩], [], [], [], 1, 1, 1⟩).2 =
      ⟨[⟨1, 4000, 2⟩], [⟨1, 3000, 3, 2⟩], [], [⟨1, 1, 1, 1⟩], [⟨1, 1, 1, 2, 3000⟩],
       [⟨1, 1, "checkout-order_id=1", -6000⟩], 2, 2, 2⟩ := by
  exact ⟨rfl, rfl⟩

/-- C1: the claim says a version-guarded checkout write that matches zero rows
aborts the whole transaction with a Conflict and commits nothing.  The code
executes `query1`/`query2` with `ExecContext` and never inspects the affected
row count, so a stale version is silent.  At this input the caller's user copy
has version 1 while the stored row has version 2 (it changed since it was
read): `CheckoutCart` nevertheless returns success and commits the product
decrement, the order, the order item, the cart deletion and the -60.00 ledger
entry while the balance row is left untouched — no Conflict, no abort. -/
theorem c1_stale_user_version_checkout_still_commits :
    (CheckoutCart ⟨1, 10000, 1⟩
        ⟨[⟨1, 10000, 2⟩], [⟨1, 3000, 5, 1⟩], [⟨1, 1, 1, 2, 1⟩], [], [], [], 1, 1, 1⟩).1 =
      Except.ok (6000, 1) ∧
    (CheckoutCart ⟨1, 10000, 1⟩
        ⟨[⟨1, 10000, 2⟩], [⟨1, 3000, 5, 1⟩], [⟨1, 1, 1, 2, 1⟩], [], [], [], 1, 1, 1⟩).2 =
      ⟨[⟨1, 10000, 2⟩], [⟨1, 3000, 3, 2⟩], [], [⟨1, 1, 1, 1⟩], [⟨1, 1, 1, 2, 3000⟩],
       [⟨1, 1, "checkout-order_id=1", -6000⟩], 2, 2, 2⟩ := by
  exact ⟨rfl, rfl⟩

/-- C7, counterexample: a successful checkout followed by a successful cancel
that does not restore the pre-checkout balance.  The caller's user copy is
stale (version 1, stored 2), so the checkout's guarded debit matches zero rows
and is silently skipped while the checkout still succeeds; the cancel then
credits the recomputed refund, leaving balance 160.00 instead of the original
100.00. -/
theorem c7_cancel_after_checkout_balance_not_restored :
    (CheckoutCart ⟨1, 10000, 1⟩
        ⟨[⟨1, 10000, 2⟩], [⟨1, 3000, 5, 1⟩], [⟨1, 1, 1, 2, 1⟩], [], [], [], 1, 1, 1⟩).1 =
      Except.ok (6000, 1) ∧
    (CancelOrder ⟨1, 1, 1, 1⟩
        (CheckoutCart ⟨1, 10000, 1⟩
          ⟨[⟨1, 10000, 2⟩], [⟨1, 3000, 5, 1⟩], [⟨1, 1, 1, 2, 1⟩], [], [], [], 1, 1, 1⟩).2).1 =
      Except.ok 6000 ∧
    userBalance
        (CancelOrder ⟨1, 1, 1, 1⟩
          (CheckoutCart ⟨1, 10000, 1⟩
            ⟨[⟨1, 10000, 2⟩], [⟨1, 3000, 5, 1⟩], [⟨1, 1, 1, 2, 1⟩], [], [], [], 1, 1, 1⟩).2).2 1 =
      some 16000 ∧
    userBalance ⟨[⟨1, 10000, 2⟩], [⟨1, 3000, 5, 1⟩], [⟨1, 1, 1, 2, 1⟩], [], [], [], 1, 1, 1⟩ 1 =
      some 10000 ∧
    (16000 : Int) ≠ 10000 := by
  exact ⟨rfl, rfl, rfl, rfl, by decide⟩

/-- C3: when the scan of the joined cart completes (no line is out of stock,
so the total is computed) on a non-empty cart and the total strictly exceeds
the caller's balance, `CheckoutCart` returns the insufficient-funds error and
rolls back: the returned state is the untouched pre-state, so the balance and
every product quantity are unchanged and no order, order item or ledger entry
is created and the cart survives.  (The per-line stock check runs first in the
source, which is why the completed scan is a premise.) -/
theorem c3_insufficient_funds_rejected (u : User) (db : DB) (total : Int)
    (hscan : scanItems (cartJoin db u.id) 0 = some total)
    (hne : cartJoin db u.id ≠ [])
    (hfunds : u.balance < total) :
    CheckoutCart u db = (Except.error CheckoutErr.insufficientFunds, db) := by
  simp only [CheckoutCart]
  rw [hscan]
  simp [hne, hfunds]

theorem c3_insufficient_funds_rejected_witness :
    CheckoutCart ⟨1, 1000, 1⟩
        ⟨[⟨1, 1000, 1⟩], [⟨1, 3000, 5, 1⟩], [⟨1, 1, 1, 2, 1⟩], [], [], [], 1, 1, 1⟩ =
      (Except.error CheckoutErr.insufficientFunds,
       ⟨[⟨1, 1000, 1⟩], [⟨1, 3000, 5, 1⟩], [⟨1, 1, 1, 2, 1⟩], [], [], [], 1, 1, 1⟩) :=
  c3_insufficient_funds_rejected ⟨1, 1000, 1⟩
    ⟨[⟨1, 1000, 1⟩], [⟨1, 3000, 5, 1⟩], [⟨1, 1, 1, 2, 1⟩], [], [], [], 1, 1, 1⟩ 6000
    (by decide) (by decide) (by decide)

/-- C4: whenever some joined cart line requests strictly more than the
product's available quantity, `CheckoutCart` aborts with the out-of-stock
error and rolls back: the returned state is the untouched pre-state, so no
product row or balance row changes and no order or order item is created. -/
theorem c4_out_of_stock_rejected (u : User) (db : DB)
    (h : ∃ cp ∈ cartJoin db u.id, cp.2.quantity < cp.1.quantity) :
    CheckoutCart u db = (Except.error CheckoutErr.outOfStock, db) := by
  simp only [CheckoutCart]
  rw [scanItems_none_of_bad _ 0 h]

theorem c4_out_of_stock_rejected_witness :
    CheckoutCart ⟨1, 10000, 1⟩
        ⟨[⟨1, 10000, 1⟩], [⟨1, 3000, 1, 1⟩], [⟨1, 1, 1, 2, 1⟩], [], [], [], 1, 1, 1⟩ =
      (Except.error CheckoutErr.outOfStock,
       ⟨[⟨1, 10000, 1⟩], [⟨1, 3000, 1, 1⟩], [⟨1, 1, 1, 2, 1⟩], [], [], [], 1, 1, 1⟩) :=
  c4_out_of_stock_rejected ⟨1, 10000, 1⟩
    ⟨[⟨1, 10000, 1⟩], [⟨1, 3000, 1, 1⟩], [⟨1, 1, 1, 2, 1⟩], [], [], [], 1, 1, 1⟩
    ⟨(⟨1, 1, 1, 2, 1⟩, ⟨1, 3000, 1, 1⟩), by decide, by decide⟩

/-- C10: when the computed cart total is exactly the caller's balance, the
insufficient-funds guard (`total.GreaterThan(u.Balance)`, strict) does not
fire; with a current user version the checkout commits and the stored balance
afterwards is exactly zero. -/
theorem c10_exact_balance_checkout_proceeds (u : User) (db : DB) (total : Int) (w : User)
    (hfind : db.users.find? (fun v => v.id == u.id) = some w)
    (hver : w.version = u.version)
    (hbal : w.balance = u.balance)
    (hscan : scanItems (cartJoin db u.id) 0 = some total)
    (hne : cartJoin db u.id ≠ [])
    (heq : total = u.balance)
    (hsig : ¬ (db.transations.any fun t =>
      t.signature == "checkout-order_id=" ++ toString db.nextOrderID) = true) :
    ∃ db1, CheckoutCart u db = (Except.ok (total, db.nextOrderID), db1) ∧
      userBalance db1 u.id = some 0 := by
  have hid : w.id = u.id := by
    have := List.find?_some hfind
    simpa using this
  simp only [CheckoutCart]
  rw [hscan]
  dsimp only
  rw [if_neg (by simp [hne]), if_neg (by omega), if_neg hsig]
  refine ⟨_, rfl, ?_⟩
  simp only [userBalance, GetUserById]
  rw [find?_guardedBalanceDebit, hfind]
  simp [hid, hver, hbal, heq]

theorem c10_exact_balance_checkout_proceeds_witness :
    ∃ db1,
      CheckoutCart ⟨1, 6000, 1⟩
          ⟨[⟨1, 6000, 1⟩], [⟨1, 3000, 5, 1⟩], [⟨1, 1, 1, 2, 1⟩], [], [], [], 1, 1, 1⟩ =
        (Except.ok (6000, 1), db1) ∧
      userBalance db1 1 = some 0 :=
  c10_exact_balance_checkout_proceeds ⟨1, 6000, 1⟩
    ⟨[⟨1, 6000, 1⟩], [⟨1, 3000, 5, 1⟩], [⟨1, 1, 1, 2, 1⟩], [], [], [], 1, 1, 1⟩ 6000
    ⟨1, 6000, 1⟩ (by decide) rfl rfl (by decide) (by decide) rfl (by decide)

/-- The two-user contention scenario of the concurrency property: users 1 and
2, one product (id 7) with stock `s`, each user's cart holding one line on
that product (`qa` resp. `qb` units), fresh versions everywhere. -/
def twoUserDB (s price qa qb balA balB : Int) : DB :=
  ⟨[⟨1, balA, 1⟩, ⟨2, balB, 1⟩], [⟨7, price, s, 1⟩],
   [⟨1, 7, 1, qa, 1⟩, ⟨2, 7, 2, qb, 1⟩], [], [], [], 1, 1, 1⟩

/-- C9: two checkouts by different users against a product whose stock covers
each request alone but not both (`qa ≤ s`, `qb ≤ s`, `s < qa + qb`, both
balances sufficient).  Serializable isolation makes the concurrent execution
equivalent to one of the two serial orders; in either serial order the first
checkout succeeds and the second aborts with the out-of-stock error — never
both commit. -/
theorem c9_concurrent_checkouts_one_succeeds (s price qa qb balA balB : Int)
    (hqa : qa ≤ s) (hqb : qb ≤ s) (hsum : s < qa + qb)
    (hfa : price * qa ≤ balA) (hfb : price * qb ≤ balB) :
    ((CheckoutCart ⟨1, balA, 1⟩ (twoUserDB s price qa qb balA balB)).1 =
        Except.ok (price * qa, 1) ∧
      (CheckoutCart ⟨2, balB, 1⟩
          (CheckoutCart ⟨1, balA, 1⟩ (twoUserDB s price qa qb balA balB)).2).1 =
        Except.error CheckoutErr.outOfStock) ∧
    ((CheckoutCart ⟨2, balB, 1⟩ (twoUserDB s price qa qb balA balB)).1 =
        Except.ok (price * qb, 1) ∧
      (CheckoutCart ⟨1, balA, 1⟩
          (CheckoutCart ⟨2, balB, 1⟩ (twoUserDB s price qa qb balA balB)).2).1 =
        Except.error CheckoutErr.outOfStock) := by
  have hjoinA : cartJoin (twoUserDB s price qa qb balA balB) 1 =
      [(⟨1, 7, 1, qa, 1⟩, ⟨7, price, s, 1⟩)] := by
    simp [cartJoin, twoUserDB, List.find?]
  have hjoinB : cartJoin (twoUserDB s price qa qb balA balB) 2 =
      [(⟨2, 7, 2, qb, 1⟩, ⟨7, price, s, 1⟩)] := by
    simp [cartJoin, twoUserDB, List.find?]
  have hA : CheckoutCart ⟨1, balA, 1⟩ (twoUserDB s price qa qb balA balB) =
      (Except.ok (price * qa, 1),
       ⟨[⟨1, balA - price * qa, 2⟩, ⟨2, balB, 1⟩], [⟨7, price, s - qa, 2⟩],
        [⟨2, 7, 2, qb, 1⟩], [⟨1, 1, 1, 1⟩], [⟨1, 1, 7, qa, price⟩],
        [⟨1, 1, "checkout-order_id=1", -(price * qa)⟩], 2, 2, 2⟩) := by
    simp only [CheckoutCart]
    rw [hjoinA]
    rw [show scanItems [((⟨1, 7, 1, qa, 1⟩ : CartItem), (⟨7, price, s, 1⟩ : Product))] 0 =
        some (0 + price * qa) by
      simp only [scanItems]
      rw [if_neg (by omega)]]
    dsimp only
    rw [if_neg (by simp), if_neg (by omega), if_neg (by simp [twoUserDB])]
    simp [applyProductDecrements, guardedProductDecrement, guardedBalanceDebit,
      buildOrderItems, twoUserDB, List.filter]
    decide
  have hB : CheckoutCart ⟨2, balB, 1⟩ (twoUserDB s price qa qb balA balB) =
      (Except.ok (price * qb, 1),
       ⟨[⟨1, balA, 1⟩, ⟨2, balB - price * qb, 2⟩], [⟨7, price, s - qb, 2⟩],
        [⟨1, 7, 1, qa, 1⟩], [⟨1, 2, 1, 1⟩], [⟨1, 1, 7, qb, price⟩],
        [⟨1, 2, "checkout-order_id=1", -(price * qb)⟩], 2, 2, 2⟩) := by
    simp only [CheckoutCart]
    rw [hjoinB]
    rw [show scanItems [((⟨2, 7, 2, qb, 1⟩ : CartItem), (⟨7, price, s, 1⟩ : Product))] 0 =
        some (0 + price * qb) by
      simp only [scanItems]
      rw [if_neg (by omega)]]
    dsimp only
    rw [if_neg (by simp), if_neg (by omega), if_neg (by simp [twoUserDB])]
    simp [applyProductDecrements, guardedProductDecrement, guardedBalanceDebit,
      buildOrderItems, twoUserDB, List.filter]
    decide
  refine ⟨⟨by rw [hA], ?_⟩, by rw [hB], ?_⟩
  · rw [hA]
    simp only [CheckoutCart]
    rw [show cartJoin
        ⟨[⟨1, balA - price * qa, 2⟩, ⟨2, balB, 1⟩], [⟨7, price, s - qa, 2⟩],
         [⟨2, 7, 2, qb, 1⟩], [⟨1, 1, 1, 1⟩], [⟨1, 1, 7, qa, price⟩],
         [⟨1, 1, "checkout-order_id=1", -(price * qa)⟩], 2, 2, 2⟩ 2 =
        [(⟨2, 7, 2, qb, 1⟩, ⟨7, price, s - qa, 2⟩)] by
      simp [cartJoin, List.find?]]
    rw [show scanItems
        [((⟨2, 7, 2, qb, 1⟩ : CartItem), (⟨7, price, s - qa, 2⟩ : Product))] 0 = none by
      simp only [scanItems]
      rw [if_pos (by omega)]]
  · rw [hB]
    simp only [CheckoutCart]
    rw [show cartJoin
        ⟨[⟨1, balA, 1⟩, ⟨2, balB - price * qb, 2⟩], [⟨7, price, s - qb, 2⟩],
         [⟨1, 7, 1, qa, 1⟩], [⟨1, 2, 1, 1⟩], [⟨1, 1, 7, qb, price⟩],
         [⟨1, 2, "checkout-order_id=1", -(price * qb)⟩], 2, 2, 2⟩ 1 =
        [(⟨1, 7, 1, qa, 1⟩, ⟨7, price, s - qb, 2⟩)] by
      simp [cartJoin, List.find?]]
    rw [show scanItems
        [((⟨1, 7, 1, qa, 1⟩ : CartItem), (⟨7, price, s - qb, 2⟩ : Product))] 0 = none by
      simp only [scanItems]
      rw [if_pos (by omega)]]

theorem c9_concurrent_checkouts_one_succeeds_witness :
    ((CheckoutCart ⟨1, 10000, 1⟩ (twoUserDB 1 3000 1 1 10000 10000)).1 =
        Except.ok (3000 * 1, 1) ∧
      (CheckoutCart ⟨2, 10000, 1⟩
          (CheckoutCart ⟨1, 10000, 1⟩ (twoUserDB 1 3000 1 1 10000 10000)).2).1 =
        Except.error CheckoutErr.outOfStock) ∧
    ((CheckoutCart ⟨2, 10000, 1⟩ (twoUserDB 1 3000 1 1 10000 10000)).1 =
        Except.ok (3000 * 1, 1) ∧
      (CheckoutCart ⟨1, 10000, 1⟩
          (CheckoutCart ⟨2, 10000, 1⟩ (twoUserDB 1 3000 1 1 10000 10000)).2).1 =
        Except.error CheckoutErr.outOfStock) :=
  c9_concurrent_checkouts_one_succeeds 1 3000 1 1 10000 10000
    (by decide) (by decide) (by decide) (by decide) (by decide)

/-- C8: (first conjunct) an order created by a successful checkout starts in
the in_progress state (`status_id` 1, the schema default used by `query3`).
(Second conjunct) delivered and cancelled are terminal: when the stored row of
the targeted order has status other than 1, both `DeliverOrder` and
`CancelOrder` fail (their guarded updates demand `status_id = 1`) and leave
the state unchanged, so no sequence of Deliver/Cancel operations ever moves an
order out of a non-in_progress state. -/
theorem c8_order_lifecycle :
    (∀ (u : User) (db : DB) (total oid : Int) (db1 : DB),
      CheckoutCart u db = (Except.ok (total, oid), db1) →
        (⟨oid, u.id, 1, 1⟩ : Order) ∈ db1.orders) ∧
    (∀ (o r : Order) (db : DB),
      r ∈ db.orders → r.id = o.id → r.statusID ≠ 1 →
      (∀ r' ∈ db.orders, r'.id = o.id → r' = r) →
        DeliverOrder o db = (none, db) ∧
        (CancelOrder o db).2 = db ∧ (∃ e, (CancelOrder o db).1 = Except.error e)) := by
  constructor
  · intro u db total oid db1 h
    simp only [CheckoutCart] at h
    split at h
    · simp at h
    · split at h
      · simp at h
      · split at h
        · simp at h
        · split at h
          · simp at h
          · simp only [Prod.mk.injEq, Except.ok.injEq] at h
            obtain ⟨⟨ht, hoid⟩, hdb⟩ := h
            subst hoid hdb
            simp
  · intro o r db hmem hid hstat huniq
    have hguard : orderGuardMatches db.orders o.id o.version = false := by
      unfold orderGuardMatches
      rw [List.any_eq_false]
      intro r' hr'
      simp only [Bool.and_eq_true, beq_iff_eq]
      intro hcond
      obtain ⟨⟨hs, hi⟩, hv⟩ := hcond
      have hr : r' = r := huniq r' hr' hi
      rw [hr] at hs
      exact hstat hs
    refine ⟨?_, ?_, ?_⟩
    · simp [DeliverOrder, hguard]
    · by_cases htot : sumOrderItems db.orderItems o.id ≤ 0
      · simp [CancelOrder, htot]
      · simp [CancelOrder, htot, hguard]
    · by_cases htot : sumOrderItems db.orderItems o.id ≤ 0
      · exact ⟨CancelErr.invalidRefund, by simp [CancelOrder, htot]⟩
      · exact ⟨CancelErr.conflict, by simp [CancelOrder, htot, hguard]⟩

theorem c8_order_lifecycle_witness :
    ((⟨1, 1, 1, 1⟩ : Order) ∈
      (⟨[⟨1, 4000, 2⟩], [⟨1, 3000, 3, 2⟩], [], [⟨1, 1, 1, 1⟩], [⟨1, 1, 1, 2, 3000⟩],
        [⟨1, 1, "checkout-order_id=1", -6000⟩], 2, 2, 2⟩ : DB).orders) ∧
    (DeliverOrder ⟨1, 1, 2, 2⟩
        ⟨[⟨1, 4000, 2⟩], [⟨1, 3000, 3, 2⟩], [], [⟨1, 1, 2, 2⟩], [⟨1, 1, 1, 2, 3000⟩],
         [⟨1, 1, "checkout-order_id=1", -6000⟩], 2, 2, 2⟩ =
      (none,
       ⟨[⟨1, 4000, 2⟩], [⟨1, 3000, 3, 2⟩], [], [⟨1, 1, 2, 2⟩], [⟨1, 1, 1, 2, 3000⟩],
        [⟨1, 1, "checkout-order_id=1", -6000⟩], 2, 2, 2⟩) ∧
     (CancelOrder ⟨1, 1, 2, 2⟩
        ⟨[⟨1, 4000, 2⟩], [⟨1, 3000, 3, 2⟩], [], [⟨1, 1, 2, 2⟩], [⟨1, 1, 1, 2, 3000⟩],
         [⟨1, 1, "checkout-order_id=1", -6000⟩], 2, 2, 2⟩).2 =
      ⟨[⟨1, 4000, 2⟩], [⟨1, 3000, 3, 2⟩], [], [⟨1, 1, 2, 2⟩], [⟨1, 1, 1, 2, 3000⟩],
       [⟨1, 1, "checkout-order_id=1", -6000⟩], 2, 2, 2⟩ ∧
     (∃ e, (CancelOrder ⟨1, 1, 2, 2⟩
        ⟨[⟨1, 4000, 2⟩], [⟨1, 3000, 3, 2⟩], [], [⟨1, 1, 2, 2⟩], [⟨1, 1, 1, 2, 3000⟩],
         [⟨1, 1, "checkout-order_id=1", -6000⟩], 2, 2, 2⟩).1 = Except.error e)) :=
  ⟨c8_order_lifecycle.1 ⟨1, 10000, 1⟩
      ⟨[⟨1, 10000, 1⟩], [⟨1, 3000, 5, 1⟩], [⟨1, 1, 1, 2, 1⟩], [], [], [], 1, 1, 1⟩ 6000 1
      ⟨[⟨1, 4000, 2⟩], [⟨1, 3000, 3, 2⟩], [], [⟨1, 1, 1, 1⟩], [⟨1, 1, 1, 2, 3000⟩],
       [⟨1, 1, "checkout-order_id=1", -6000⟩], 2, 2, 2⟩ rfl,
   c8_order_lifecycle.2 ⟨1, 1, 2, 2⟩ ⟨1, 1, 2, 2⟩
      ⟨[⟨1, 4000, 2⟩], [⟨1, 3000, 3, 2⟩], [], [⟨1, 1, 2, 2⟩], [⟨1, 1, 1, 2, 3000⟩],
       [⟨1, 1, "checkout-order_id=1", -6000⟩], 2, 2, 2⟩
      (by decide) rfl (by decide) (by decide)⟩

/-- C2: applying the same completed, verified payment notification twice
credits the user's balance exactly once.  Before crediting, the handler looks
up a ledger entry with signature `payment-session-id=<session id>`; on a first
delivery none exists, so the user is credited and the entry inserted in one
transaction; re-delivering the identical payload finds the entry, is a no-op
(the state is exactly unchanged) and still reports success. -/
theorem c2_webhook_idempotent (ev : WebhookEvent) (db : DB) (u : User)
    (hver : ev.verified = true) (hcomp : ev.completed = true)
    (htag : ev.balanceTransferTag = BalanceTransfer)
    (hfind : GetUserById db ev.userID = some u)
    (hsig : GetTransationWithSignature db ("payment-session-id=" ++ ev.sessionID) = none) :
    ∃ db1, applyPaymentWebhook ev db = (true, db1) ∧
      userBalance db1 ev.userID = some (u.balance + ev.amount) ∧
      applyPaymentWebhook ev db1 = (true, db1) := by
  have hid : u.id = ev.userID := by
    have := List.find?_some hfind
    simpa using this
  have humem : u ∈ db.users := List.mem_of_find?_eq_some hfind
  have hsigF : db.transations.find?
      (fun t => t.signature == "payment-session-id=" ++ ev.sessionID) = none := hsig
  have hanysig : (db.transations.any
      fun t => t.signature == "payment-session-id=" ++ ev.sessionID) = false := by
    rw [List.any_eq_false]
    intro t ht
    simpa using List.find?_eq_none.mp hsigF t ht
  have hanyuser : (db.users.any fun v => v.id == u.id && v.version == u.version) = true := by
    rw [List.any_eq_true]
    exact ⟨u, humem, by simp⟩
  refine ⟨{ db with
      users := guardedBalanceCredit db.users u.id u.version ev.amount
      transations := db.transations ++
        [⟨db.nextTransationID, u.id, "payment-session-id=" ++ ev.sessionID, ev.amount⟩]
      nextTransationID := db.nextTransationID + 1 }, ?_, ?_, ?_⟩
  · simp only [applyPaymentWebhook, hver, hcomp, htag, Bool.not_true, Bool.false_eq_true,
      if_false, ne_eq, not_true_eq_false]
    rw [hsig]
    dsimp only
    rw [hfind]
    simp only [TransferToUser, hanysig, hanyuser, Bool.not_true, Bool.false_eq_true, if_false]
  · simp only [userBalance, GetUserById]
    rw [find?_guardedBalanceCredit]
    have hfind' : db.users.find? (fun v => v.id == ev.userID) = some u := hfind
    rw [hfind']
    simp
  · have hsig2 : GetTransationWithSignature
        { db with
          users := guardedBalanceCredit db.users u.id u.version ev.amount
          transations := db.transations ++
            [⟨db.nextTransationID, u.id, "payment-session-id=" ++ ev.sessionID, ev.amount⟩]
          nextTransationID := db.nextTransationID + 1 }
        ("payment-session-id=" ++ ev.sessionID) =
        some ⟨db.nextTransationID, u.id, "payment-session-id=" ++ ev.sessionID, ev.amount⟩ := by
      simp only [GetTransationWithSignature]
      rw [List.find?_append, hsigF]
      simp [List.find?]
    simp only [applyPaymentWebhook, hver, hcomp, htag, Bool.not_true, Bool.false_eq_true,
      if_false, ne_eq, not_true_eq_false]
    rw [hsig2]

theorem c2_webhook_idempotent_witness :
    ∃ db1,
      applyPaymentWebhook ⟨true, true, "BalanceTransfer", "cs_1", 1, 5000⟩
          ⟨[⟨1, 10000, 1⟩], [], [], [], [], [], 1, 1, 1⟩ = (true, db1) ∧
      userBalance db1 1 = some (10000 + 5000) ∧
      applyPaymentWebhook ⟨true, true, "BalanceTransfer", "cs_1", 1, 5000⟩ db1 = (true, db1) :=
  c2_webhook_idempotent ⟨true, true, "BalanceTransfer", "cs_1", 1, 5000⟩
    ⟨[⟨1, 10000, 1⟩], [], [], [], [], [], 1, 1, 1⟩ ⟨1, 10000, 1⟩
    rfl rfl rfl (by decide) (by decide)

/-- C6: the invariant `sum(OrderItem.price * OrderItem.quantity) = -(checkout
ledger amount) = cancellation refund`, rendered operationally.  First
conjunct: a committing checkout writes order items for the new order whose
price-times-quantity sum is exactly the charged total, and a ledger entry with
signature `checkout-order_id=<id>` and amount `-total`.  Second conjunct: a
successful cancel returns exactly that recomputed sum as the refund and
records a ledger entry with signature `cancel-order-id=<id>` whose amount is
that same sum. -/
theorem c6_order_total_matches_ledger :
    (∀ (u : User) (db : DB) (total : Int),
      scanItems (cartJoin db u.id) 0 = some total →
      ¬ (cartJoin db u.id).isEmpty = true →
      ¬ u.balance < total →
      ¬ (db.transations.any fun t =>
        t.signature == "checkout-order_id=" ++ toString db.nextOrderID) = true →
      (∀ i ∈ db.orderItems, i.orderID ≠ db.nextOrderID) →
      ∃ db1, CheckoutCart u db = (Except.ok (total, db.nextOrderID), db1) ∧
        sumOrderItems db1.orderItems db.nextOrderID = total ∧
        GetTransationWithSignature db1 ("checkout-order_id=" ++ toString db.nextOrderID) =
          some ⟨db.nextTransationID, u.id,
            "checkout-order_id=" ++ toString db.nextOrderID, -total⟩) ∧
    (∀ (o : Order) (db : DB) (u : User),
      ¬ sumOrderItems db.orderItems o.id ≤ 0 →
      orderGuardMatches db.orders o.id o.version = true →
      GetUserById db o.userID = some u →
      ¬ (db.transations.any fun t =>
        t.signature == "cancel-order-id=" ++ toString o.id) = true →
      ∃ db2, CancelOrder o db = (Except.ok (sumOrderItems db.orderItems o.id), db2) ∧
        GetTransationWithSignature db2 ("cancel-order-id=" ++ toString o.id) =
          some ⟨db.nextTransationID, u.id, "cancel-order-id=" ++ toString o.id,
            sumOrderItems db.orderItems o.id⟩) := by
  constructor
  · intro u db total hscan hne hfunds hsig hfresh
    have hsigF : db.transations.find?
        (fun t => t.signature == "checkout-order_id=" ++ toString db.nextOrderID) = none := by
      apply List.find?_eq_none.mpr
      intro t ht
      have hsig' : (db.transations.any fun t =>
          t.signature == "checkout-order_id=" ++ toString db.nextOrderID) = false := by
        simpa using hsig
      simpa using List.any_eq_false.mp hsig' t ht
    refine ⟨{ users := guardedBalanceDebit db.users u.id u.version total,
              products := applyProductDecrements db.products (cartJoin db u.id),
              cartItems := db.cartItems.filter (fun c => c.userID ≠ u.id),
              orders := db.orders ++ [⟨db.nextOrderID, u.id, 1, 1⟩],
              orderItems := db.orderItems ++
                buildOrderItems (cartJoin db u.id) db.nextOrderID db.nextOrderItemID,
              transations := db.transations ++
                [⟨db.nextTransationID, u.id,
                  "checkout-order_id=" ++ toString db.nextOrderID, -total⟩],
              nextOrderID := db.nextOrderID + 1,
              nextOrderItemID := db.nextOrderItemID + (cartJoin db u.id).length,
              nextTransationID := db.nextTransationID + 1 }, ?_, ?_, ?_⟩
    · simp only [CheckoutCart]
      rw [hscan]
      dsimp only
      rw [if_neg hne, if_neg hfunds, if_neg hsig]
    · dsimp only
      rw [sumOrderItems_append, sumOrderItems_eq_zero _ _ hfresh, sumOrderItems_build]
      have := scanItems_some_total _ _ _ hscan
      omega
    · simp only [GetTransationWithSignature]
      rw [List.find?_append, hsigF]
      simp [List.find?]
  · intro o db u htot hg hu hsig
    have hsigF : db.transations.find?
        (fun t => t.signature == "cancel-order-id=" ++ toString o.id) = none := by
      apply List.find?_eq_none.mpr
      intro t ht
      have hsig' : (db.transations.any fun t =>
          t.signature == "cancel-order-id=" ++ toString o.id) = false := by
        simpa using hsig
      simpa using List.any_eq_false.mp hsig' t ht
    refine ⟨{ db with
              orders := guardedOrderStatusUpdate db.orders 3 o.id o.version,
              users := guardedBalanceCredit db.users u.id u.version
                (sumOrderItems db.orderItems o.id),
              transations := db.transations ++
                [⟨db.nextTransationID, u.id, "cancel-order-id=" ++ toString o.id,
                  sumOrderItems db.orderItems o.id⟩],
              nextTransationID := db.nextTransationID + 1 }, ?_, ?_⟩
    · simp only [CancelOrder]
      rw [if_neg htot]
      rw [hg]
      rw [if_neg (by simp)]
      rw [hu]
      dsimp only
      rw [if_neg hsig]
    · simp only [GetTransationWithSignature]
      rw [List.find?_append, hsigF]
      simp [List.find?]

theorem c6_order_total_matches_ledger_witness :
    (∃ db1,
      CheckoutCart ⟨1, 10000, 1⟩
          ⟨[⟨1, 10000, 1⟩], [⟨1, 3000, 5, 1⟩], [⟨1, 1, 1, 2, 1⟩], [], [], [], 1, 1, 1⟩ =
        (Except.ok (6000, 1), db1) ∧
      sumOrderItems db1.orderItems 1 = 6000 ∧
      GetTransationWithSignature db1 ("checkout-order_id=" ++ toString (1 : Int)) =
        some ⟨1, 1, "checkout-order_id=" ++ toString (1 : Int), -6000⟩) ∧
    (∃ db2,
      CancelOrder ⟨1, 1, 1, 1⟩
          ⟨[⟨1, 4000, 2⟩], [⟨1, 3000, 3, 2⟩], [], [⟨1, 1, 1, 1⟩], [⟨1, 1, 1, 2, 3000⟩],
           [⟨1, 1, "checkout-order_id=1", -6000⟩], 2, 2, 2⟩ =
        (Except.ok 6000, db2) ∧
      GetTransationWithSignature db2 ("cancel-order-id=" ++ toString (1 : Int)) =
        some ⟨2, 1, "cancel-order-id=" ++ toString (1 : Int), 6000⟩) :=
  ⟨c6_order_total_matches_ledger.1 ⟨1, 10000, 1⟩
      ⟨[⟨1, 10000, 1⟩], [⟨1, 3000, 5, 1⟩], [⟨1, 1, 1, 2, 1⟩], [], [], [], 1, 1, 1⟩ 6000
      (by decide) (by decide) (by decide) (by decide) (by decide),
   c6_order_total_matches_ledger.2 ⟨1, 1, 1, 1⟩
      ⟨[⟨1, 4000, 2⟩], [⟨1, 3000, 3, 2⟩], [], [⟨1, 1, 1, 1⟩], [⟨1, 1, 1, 2, 3000⟩],
       [⟨1, 1, "checkout-order_id=1", -6000⟩], 2, 2, 2⟩ ⟨1, 4000, 2⟩
      (by decide) (by decide) (by decide) (by decide)⟩

/-- C7, amended: after a successful checkout whose caller-supplied user
version was current (the stored row's version matches it, so the guarded
balance debit really applied) and whose order id was fresh among order items,
a successful cancel of the created order restores the user's stored balance to
its exact pre-checkout value, and the cancel restores no inventory: every
product row is exactly as the checkout left it. -/
theorem c7_cancel_restores_balance_with_current_version (u w : User) (db : DB) (total oid refund : Int) (db1 db2 : DB)
    (hfind : db.users.find? (fun v => v.id == u.id) = some w)
    (hver : w.version = u.version)
    (hfresh : ∀ i ∈ db.orderItems, i.orderID ≠ db.nextOrderID)
    (hc1 : CheckoutCart u db = (Except.ok (total, oid), db1))
    (hc2 : CancelOrder ⟨oid, u.id, 1, 1⟩ db1 = (Except.ok refund, db2)) :
    userBalance db2 u.id = userBalance db u.id ∧ db2.products = db1.products := by
  have hwid : w.id = u.id := by
    have := List.find?_some hfind
    simpa using this
  simp only [CheckoutCart] at hc1
  cases hscan : scanItems (cartJoin db u.id) 0 with
  | none =>
    rw [hscan] at hc1
    simp at hc1
  | some t =>
    rw [hscan] at hc1
    dsimp only at hc1
    by_cases hne : (cartJoin db u.id).isEmpty = true
    · rw [if_pos hne] at hc1
      simp at hc1
    · rw [if_neg hne] at hc1
      by_cases hfunds : u.balance < t
      · rw [if_pos hfunds] at hc1
        simp at hc1
      · rw [if_neg hfunds] at hc1
        by_cases hcksig : (db.transations.any
            fun tr => tr.signature == "checkout-order_id=" ++ toString db.nextOrderID) = true
        · rw [if_pos hcksig] at hc1
          simp at hc1
        · rw [if_neg hcksig] at hc1
          simp only [Prod.mk.injEq, Except.ok.injEq] at hc1
          obtain ⟨⟨ht, hoid⟩, hdb1⟩ := hc1
          subst hoid hdb1
          subst ht
          have hrt : sumOrderItems
              (db.orderItems ++ buildOrderItems (cartJoin db u.id) db.nextOrderID db.nextOrderItemID)
              db.nextOrderID = t := by
            rw [sumOrderItems_append, sumOrderItems_eq_zero _ _ hfresh, sumOrderItems_build]
            have := scanItems_some_total _ _ _ hscan
            omega
          simp only [CancelOrder] at hc2
          rw [hrt] at hc2
          by_cases htot : t ≤ 0
          · rw [if_pos htot] at hc2
            simp at hc2
          · rw [if_neg htot] at hc2
            by_cases hg : orderGuardMatches
                (db.orders ++ [⟨db.nextOrderID, u.id, 1, 1⟩]) db.nextOrderID 1 = true
            · rw [hg] at hc2
              rw [if_neg (by simp)] at hc2
              have hfind1 : (guardedBalanceDebit db.users u.id u.version t).find?
                  (fun v => v.id == u.id) =
                  some { w with balance := w.balance - t, version := w.version + 1 } := by
                rw [find?_guardedBalanceDebit, hfind]
                simp [hwid, hver]
              split at hc2
              next hequ =>
                rw [show GetUserById
                    { users := guardedBalanceDebit db.users u.id u.version t,
                      products := applyProductDecrements db.products (cartJoin db u.id),
                      cartItems := db.cartItems.filter fun c => c.userID ≠ u.id,
                      orders := db.orders ++ [⟨db.nextOrderID, u.id, 1, 1⟩],
                      orderItems := db.orderItems ++
                        buildOrderItems (cartJoin db u.id) db.nextOrderID db.nextOrderItemID,
                      transations := db.transations ++
                        [⟨db.nextTransationID, u.id,
                          "checkout-order_id=" ++ toString db.nextOrderID, -t⟩],
                      nextOrderID := db.nextOrderID + 1,
                      nextOrderItemID := db.nextOrderItemID + (cartJoin db u.id).length,
                      nextTransationID := db.nextTransationID + 1 } u.id =
                    some { w with balance := w.balance - t, version := w.version + 1 } from
                  hfind1] at hequ
                simp at hequ
              next u1 hequ =>
                rw [show GetUserById
                    { users := guardedBalanceDebit db.users u.id u.version t,
                      products := applyProductDecrements db.products (cartJoin db u.id),
                      cartItems := db.cartItems.filter fun c => c.userID ≠ u.id,
                      orders := db.orders ++ [⟨db.nextOrderID, u.id, 1, 1⟩],
                      orderItems := db.orderItems ++
                        buildOrderItems (cartJoin db u.id) db.nextOrderID db.nextOrderItemID,
                      transations := db.transations ++
                        [⟨db.nextTransationID, u.id,
                          "checkout-order_id=" ++ toString db.nextOrderID, -t⟩],
                      nextOrderID := db.nextOrderID + 1,
                      nextOrderItemID := db.nextOrderItemID + (cartJoin db u.id).length,
                      nextTransationID := db.nextTransationID + 1 } u.id =
                    some { w with balance := w.balance - t, version := w.version + 1 } from
                  hfind1] at hequ
                have hu1 : u1 = { w with balance := w.balance - t, version := w.version + 1 } := by
                  injection hequ with h1
                  exact h1.symm
                subst hu1
                by_cases hcs : ((db.transations ++
                    [(⟨db.nextTransationID, u.id,
                      "checkout-order_id=" ++ toString db.nextOrderID, -t⟩ : Transation)]).any
                    fun tr => tr.signature == "cancel-order-id=" ++ toString db.nextOrderID) = true
                · rw [if_pos hcs] at hc2
                  simp at hc2
                · rw [if_neg hcs] at hc2
                  simp only [Prod.mk.injEq, Except.ok.injEq] at hc2
                  obtain ⟨hrefund, hdb2⟩ := hc2
                  subst hrefund hdb2
                  constructor
                  · simp only [userBalance, GetUserById]
                    rw [find?_guardedBalanceCredit]
                    rw [hfind1]
                    rw [hfind]
                    simp
                  · rfl
            · simp only [Bool.not_eq_true] at hg
              rw [hg] at hc2
              rw [if_pos (by simp)] at hc2
              simp at hc2

theorem c7_cancel_restores_balance_with_current_version_witness :
    userBalance
        ⟨[⟨1, 10000, 3⟩], [⟨1, 3000, 3, 2⟩], [], [⟨1, 1, 3, 2⟩], [⟨1, 1, 1, 2, 3000⟩],
         [⟨1, 1, "checkout-order_id=1", -6000⟩, ⟨2, 1, "cancel-order-id=1", 6000⟩], 2, 2, 3⟩ 1 =
      userBalance ⟨[⟨1, 10000, 1⟩], [⟨1, 3000, 5, 1⟩], [⟨1, 1, 1, 2, 1⟩], [], [], [], 1, 1, 1⟩ 1 ∧
    DB.products
        ⟨[⟨1, 10000, 3⟩], [⟨1, 3000, 3, 2⟩], [], [⟨1, 1, 3, 2⟩], [⟨1, 1, 1, 2, 3000⟩],
         [⟨1, 1, "checkout-order_id=1", -6000⟩, ⟨2, 1, "cancel-order-id=1", 6000⟩], 2, 2, 3⟩ =
      DB.products
        ⟨[⟨1, 4000, 2⟩], [⟨1, 3000, 3, 2⟩], [], [⟨1, 1, 1, 1⟩], [⟨1, 1, 1, 2, 3000⟩],
         [⟨1, 1, "checkout-order_id=1", -6000⟩], 2, 2, 2⟩ :=
  c7_cancel_restores_balance_with_current_version ⟨1, 10000, 1⟩ ⟨1, 10000, 1⟩
    ⟨[⟨1, 10000, 1⟩], [⟨1, 3000, 5, 1⟩], [⟨1, 1, 1, 2, 1⟩], [], [], [], 1, 1, 1⟩ 6000 1 6000
    ⟨[⟨1, 4000, 2⟩], [⟨1, 3000, 3, 2⟩], [], [⟨1, 1, 1, 1⟩], [⟨1, 1, 1, 2, 3000⟩],
     [⟨1, 1, "checkout-order_id=1", -6000⟩], 2, 2, 2⟩
    ⟨[⟨1, 10000, 3⟩], [⟨1, 3000, 3, 2⟩], [], [⟨1, 1, 3, 2⟩], [⟨1, 1, 1, 2, 3000⟩],
     [⟨1, 1, "checkout-order_id=1", -6000⟩, ⟨2, 1, "cancel-order-id=1", 6000⟩], 2, 2, 3⟩
    (by decide) rfl (by decide) rfl rfl

end Ecommerce
